import Mathlib

/-!
Verification of `ensembl_map/features.py`: five genomic feature record
variants (CDS, Exon, Gene, Protein, Transcript), each built from a source
transcript object plus 1-based coordinates, a tag-keyed factory
(`get_parse_function`), identity-tuple projection (`to_tuple`) and the
debug string form inherited from `FeatureBase.__repr__`.

Python strings are embedded as Lean `String`, Python ints as `Int`, and
Python step-1 slicing `s[a:b]` (including negative-index wraparound and
clamping) as `pySlice`.
-/

/-- Python slice index normalisation for a sequence of length `n`:
a negative index is first shifted by `n`, then the result is clamped
into `[0, n]`. -/
def pyNorm (n : Nat) (i : Int) : Nat :=
  if i < 0 then (max (i + n) 0).toNat
  else min i.toNat n

/-- Python step-1 string slice `src[a:b]`. -/
def pySlice (src : String) (a b : Int) : String :=
  let n := src.length
  String.mk ((src.toList.take (pyNorm n b)).drop (pyNorm n a))

/-- The source transcript object (`tobj`): external collaborator supplying
contig, strand, biotype, identifiers and the three sequences that the
loaders read from.  Attributes taken from the union of what the five
`load` classmethods access. -/
structure Tobj where
  contig : String
  strand : String
  biotype : String
  transcript_id : String
  transcript_name : String
  gene_id : String
  gene_name : String
  protein_id : String
  sequence : String
  coding_sequence : String
  protein_sequence : String
deriving DecidableEq, Repr

/-- Embeds `class CDS(FeatureBase)`: fields in `__init__` assignment order. -/
structure CDS where
  contig : String
  start : Int
  end_ : Int
  strand : String
  biotype : String
  transcript_id : String
  transcript_name : String
  seq : String
deriving DecidableEq, Repr

/-- Embeds `CDS.load(cls, tobj, start, end)`. -/
def CDS.load (tobj : Tobj) (start end_ : Int) : CDS :=
  { contig := tobj.contig
    start := start
    end_ := end_
    strand := tobj.strand
    biotype := tobj.biotype
    transcript_id := tobj.transcript_id
    transcript_name := tobj.transcript_name
    seq := pySlice tobj.coding_sequence (start - 1) end_ }

/-- Embeds `CDS.to_tuple(self)`. -/
def CDS.to_tuple (self : CDS) : String × Int × Int :=
  (self.transcript_id, self.start, self.end_)

/-- Embeds `class Exon(FeatureBase)`: fields in `__init__` assignment order. -/
structure Exon where
  contig : String
  start : Int
  end_ : Int
  strand : String
  biotype : String
  exon_id : String
  transcript_id : String
  transcript_name : String
  index : Int
  seq : String
deriving DecidableEq, Repr

/-- Embeds `Exon.load(cls, tobj, start, end, biotype, exon_id, index)`.
Note: the `biotype` parameter is accepted but the body stores
`tobj.biotype` (features.py line 106), so the argument is ignored. -/
def Exon.load (tobj : Tobj) (start end_ : Int) (biotype exon_id : String)
    (index : Int) : Exon :=
  { contig := tobj.contig
    start := start
    end_ := end_
    strand := tobj.strand
    biotype := tobj.biotype
    exon_id := exon_id
    transcript_id := tobj.transcript_id
    transcript_name := tobj.transcript_name
    index := index
    seq := pySlice tobj.sequence (start - 1) end_ }

/-- Embeds `Exon.to_tuple(self)`. -/
def Exon.to_tuple (self : Exon) : String × Int × Int :=
  (self.exon_id, self.start, self.end_)

/-- Embeds `class Gene(FeatureBase)`: fields in `__init__` assignment order. -/
structure Gene where
  contig : String
  start : Int
  end_ : Int
  strand : String
  biotype : String
  gene_id : String
  gene_name : String
deriving DecidableEq, Repr

/-- Embeds `Gene.load(cls, tobj, start, end)`. -/
def Gene.load (tobj : Tobj) (start end_ : Int) : Gene :=
  { contig := tobj.contig
    start := start
    end_ := end_
    strand := tobj.strand
    biotype := tobj.biotype
    gene_id := tobj.gene_id
    gene_name := tobj.gene_name }

/-- Embeds `Gene.to_tuple(self)`. -/
def Gene.to_tuple (self : Gene) : String × Int × Int :=
  (self.gene_id, self.start, self.end_)

/-- Embeds `class Protein` (does not extend `FeatureBase`): fields in `__init__`
assignment order. -/
structure Protein where
  contig : String
  start : Int
  end_ : Int
  strand : String
  biotype : String
  protein_id : String
  seq : String
deriving DecidableEq, Repr

/-- Embeds `Protein.load(cls, tobj, start, end)`. -/
def Protein.load (tobj : Tobj) (start end_ : Int) : Protein :=
  { contig := tobj.contig
    start := start
    end_ := end_
    strand := tobj.strand
    biotype := tobj.biotype
    protein_id := tobj.protein_id
    seq := pySlice tobj.protein_sequence (start - 1) end_ }

/-- Embeds `Protein.to_tuple(self)`. -/
def Protein.to_tuple (self : Protein) : String × Int × Int :=
  (self.protein_id, self.start, self.end_)

/-- Embeds `class Transcript(FeatureBase)`: fields in `__init__` assignment order. -/
structure Transcript where
  contig : String
  start : Int
  end_ : Int
  strand : String
  biotype : String
  transcript_id : String
  transcript_name : String
  seq : String
deriving DecidableEq, Repr

/-- Embeds `Transcript.load(cls, tobj, start, end)`. -/
def Transcript.load (tobj : Tobj) (start end_ : Int) : Transcript :=
  { contig := tobj.contig
    start := start
    end_ := end_
    strand := tobj.strand
    biotype := tobj.biotype
    transcript_id := tobj.transcript_id
    transcript_name := tobj.transcript_name
    seq := pySlice tobj.sequence (start - 1) end_ }

/-- Embeds `Transcript.to_tuple(self)`. -/
def Transcript.to_tuple (self : Transcript) : String × Int × Int :=
  (self.transcript_id, self.start, self.end_)

/-- Embeds `FeatureBase._seqlim = 3`: only print the first N bases of a sequence. -/
def seqlim : Nat := 3

/-- One `f"{i}={self.__dict__[i]}"` entry of `FeatureBase.__repr__`,
with the `seq` special case truncating values longer than `seqlim`. -/
def reprEntry (k v : String) : String :=
  if k = "seq" then
    if v.length > seqlim then k ++ "=" ++ v.take seqlim ++ "..."
    else k ++ "=" ++ v
  else k ++ "=" ++ v

/-- Embeds `", ".join(rargs)` over the rendered field entries. -/
def joinArgs : List (String × String) → String
  | [] => ""
  | [p] => reprEntry p.1 p.2
  | p :: q :: rest => reprEntry p.1 p.2 ++ ", " ++ joinArgs (q :: rest)

/-- Embeds `FeatureBase.__repr__`: class name, parenthesised field list in
`__dict__` insertion order (= construction order). -/
def featureRepr (cls : String) (fields : List (String × String)) : String :=
  cls ++ "(" ++ joinArgs fields ++ ")"

/-- Debug string of a `CDS` record via the inherited `__repr__`. -/
def CDS.debugStr (self : CDS) : String :=
  featureRepr "CDS"
    [("contig", self.contig), ("start", toString self.start),
     ("end", toString self.end_), ("strand", self.strand),
     ("biotype", self.biotype), ("transcript_id", self.transcript_id),
     ("transcript_name", self.transcript_name), ("seq", self.seq)]

/-- Debug string of an `Exon` record via the inherited `__repr__`. -/
def Exon.debugStr (self : Exon) : String :=
  featureRepr "Exon"
    [("contig", self.contig), ("start", toString self.start),
     ("end", toString self.end_), ("strand", self.strand),
     ("biotype", self.biotype), ("exon_id", self.exon_id),
     ("transcript_id", self.transcript_id),
     ("transcript_name", self.transcript_name),
     ("index", toString self.index), ("seq", self.seq)]

/-- Debug string of a `Gene` record via the inherited `__repr__`
(no `seq` field). -/
def Gene.debugStr (self : Gene) : String :=
  featureRepr "Gene"
    [("contig", self.contig), ("start", toString self.start),
     ("end", toString self.end_), ("strand", self.strand),
     ("biotype", self.biotype), ("gene_id", self.gene_id),
     ("gene_name", self.gene_name)]

/-- Debug string of a `Transcript` record via the inherited `__repr__`. -/
def Transcript.debugStr (self : Transcript) : String :=
  featureRepr "Transcript"
    [("contig", self.contig), ("start", toString self.start),
     ("end", toString self.end_), ("strand", self.strand),
     ("biotype", self.biotype), ("transcript_id", self.transcript_id),
     ("transcript_name", self.transcript_name), ("seq", self.seq)]

/-- The value returned by `get_parse_function`: one of the five variants'
`load` classmethods (distinct callables with distinct signatures). -/
inductive ParseFunction where
  | cdsLoad : (Tobj → Int → Int → CDS) → ParseFunction
  | exonLoad : (Tobj → Int → Int → String → String → Int → Exon) → ParseFunction
  | geneLoad : (Tobj → Int → Int → Gene) → ParseFunction
  | proteinLoad : (Tobj → Int → Int → Protein) → ParseFunction
  | transcriptLoad : (Tobj → Int → Int → Transcript) → ParseFunction

/-- Embeds `get_parse_function(to_type)`: exact-string dispatch over the five
tags; any other tag raises `TypeError(f"Could not get parse function for
{to_type}")`, modelled as `Except.error` carrying the message. -/
def get_parse_function (to_type : String) : Except String ParseFunction :=
  if to_type = "cds" then .ok (.cdsLoad CDS.load)
  else if to_type = "exon" then .ok (.exonLoad Exon.load)
  else if to_type = "gene" then .ok (.geneLoad Gene.load)
  else if to_type = "protein" then .ok (.proteinLoad Protein.load)
  else if to_type = "transcript" then .ok (.transcriptLoad Transcript.load)
  else .error ("Could not get parse function for " ++ to_type)

/-- Modelled from the spec: §3 Lifecycle and the §9 open question describe a
`CDS` loader that, like `Exon.load`, takes an externally supplied `biotype`
argument stored in the record.  The actual `CDS.load` in features.py
(lines 43-54) has no such parameter; this definition follows the spec's
words for comparison with the source's `CDS.load`. -/
def CDS.load_speced (tobj : Tobj) (start end_ : Int) (biotype : String) : CDS :=
  { contig := tobj.contig
    start := start
    end_ := end_
    strand := tobj.strand
    biotype := biotype
    transcript_id := tobj.transcript_id
    transcript_name := tobj.transcript_name
    seq := pySlice tobj.coding_sequence (start - 1) end_ }

/-- A concrete source transcript whose coding sequence is the spec's
`"ATGCCCTAA"` example, used in witnesses and counterexamples. -/
def tEx : Tobj :=
  { contig := "12"
    strand := "+"
    biotype := "protein_coding"
    transcript_id := "ENST0001"
    transcript_name := "GENE-201"
    gene_id := "ENSG0001"
    gene_name := "GENE"
    protein_id := "ENSP0001"
    sequence := "ATGCCCTAA"
    coding_sequence := "ATGCCCTAA"
    protein_sequence := "MP" }

/-- A concrete source transcript whose sequences have length 5, for the
spec's truncation example and for reversed-coordinate inputs. -/
def tShort : Tobj :=
  { contig := "X"
    strand := "-"
    biotype := "lincRNA"
    transcript_id := "ENST0002"
    transcript_name := "GENE-202"
    gene_id := "ENSG0002"
    gene_name := "GENE2"
    protein_id := "ENSP0002"
    sequence := "ATGCC"
    coding_sequence := "ATGCC"
    protein_sequence := "MPKRS" }

section SliceLemmas

/-- In-bounds slicing: for `1 ≤ s ≤ e ≤ |src|`, the Python slice
`src[s-1:e]` is the 1-based inclusive window of `e - s + 1` characters
starting at position `s`. -/
lemma pySlice_of_bounds (src : String) (s e : Int) (h1 : 1 ≤ s) (h2 : s ≤ e)
    (h3 : e ≤ (src.length : Int)) :
    pySlice src (s - 1) e =
      String.mk ((src.toList.drop (s - 1).toNat).take (e - s + 1).toNat) := by
  have hlen : src.toList.length = src.length := rfl
  simp only [pySlice, pyNorm]
  rw [if_neg (by omega), if_neg (by omega)]
  have h4 : min e.toNat src.length = e.toNat := by omega
  have h5 : min (s - 1).toNat src.length = (s - 1).toNat := by omega
  rw [h4, h5, List.drop_take]
  congr 2
  omega

/-- Truncation: when `e` exceeds the source length and `1 ≤ s`, the Python
slice `src[s-1:e]` is the suffix of `src` from index `s-1` onward. -/
lemma pySlice_of_overflow (src : String) (s e : Int) (h1 : 1 ≤ s)
    (h2 : (src.length : Int) < e) :
    pySlice src (s - 1) e = String.mk (src.toList.drop (s - 1).toNat) := by
  have hlen : src.toList.length = src.length := rfl
  simp only [pySlice, pyNorm]
  rw [if_neg (by omega), if_neg (by omega)]
  have h4 : min e.toNat src.length = src.length := by omega
  rw [h4, ← hlen, List.take_length]
  rcases Nat.le_total ((s - 1).toNat) src.toList.length with h | h
  · rw [min_eq_left (by omega)]
  · rw [min_eq_right (by omega)]
    rw [List.drop_eq_nil_iff.mpr (by omega), List.drop_eq_nil_iff.mpr (by omega)]

/-- Reversed coordinates with a nonnegative upper index: when
`0 ≤ e < s`, the Python slice `src[s-1:e]` is empty. -/
lemma pySlice_of_rev (src : String) (s e : Int) (h1 : 0 ≤ e) (h2 : e < s) :
    pySlice src (s - 1) e = "" := by
  have hlen : src.toList.length = src.length := rfl
  simp only [pySlice, pyNorm]
  rw [if_neg (by omega), if_neg (by omega)]
  have h : (src.toList.take (min e.toNat src.length)).drop
      (min (s - 1).toNat src.length) = [] := by
    rw [List.drop_eq_nil_iff]
    have := List.length_take (min e.toNat src.length) src.toList
    omega
  rw [h]

end SliceLemmas

/-- A non-`seq` field renders as `key=value`. -/
lemma reprEntry_ne (k v : String) (h : k ≠ "seq") :
    reprEntry k v = k ++ "=" ++ v := by
  simp [reprEntry, h]

/-- The `seq` field of length greater than `seqlim` renders as its first
`seqlim` characters followed by `"..."`. -/
lemma reprEntry_seq_long (v : String) (h : v.length > 3) :
    reprEntry "seq" v = "seq" ++ "=" ++ v.take 3 ++ "..." := by
  simp [reprEntry, seqlim, h]

/-- A string of length greater than 3 differs from its own 3-character
truncation. -/
lemma take_three_ne (v : String) (h : v.length > 3) : v.take 3 ≠ v := by
  intro heq
  have hd : (v.take 3).data = v.data := congrArg String.data heq
  rw [String.data_take] at hd
  have hlt := List.length_take 3 v.data
  rw [hd] at hlt
  have hl : v.data.length = v.length := rfl
  omega

/-- C2: for `1 ≤ start ≤ end ≤` the length of the relevant source sequence,
the `seq` field built by `load` is the 1-based inclusive slice of that
source sequence — the coding sequence for CDS, the full transcript sequence
for Transcript and Exon, the translated protein sequence for Protein —
i.e. the `end - start + 1` characters beginning at 1-based position
`start`. -/
theorem C2_seq_one_based_inclusive_slice (t : Tobj) (s e : Int)
    (b eid : String) (idx : Int) (h1 : 1 ≤ s) (h2 : s ≤ e) :
    (e ≤ (t.coding_sequence.length : Int) →
      (CDS.load t s e).seq =
        String.mk ((t.coding_sequence.toList.drop (s - 1).toNat).take
          (e - s + 1).toNat)) ∧
    (e ≤ (t.sequence.length : Int) →
      (Transcript.load t s e).seq =
        String.mk ((t.sequence.toList.drop (s - 1).toNat).take
          (e - s + 1).toNat) ∧
      (Exon.load t s e b eid idx).seq =
        String.mk ((t.sequence.toList.drop (s - 1).toNat).take
          (e - s + 1).toNat)) ∧
    (e ≤ (t.protein_sequence.length : Int) →
      (Protein.load t s e).seq =
        String.mk ((t.protein_sequence.toList.drop (s - 1).toNat).take
          (e - s + 1).toNat)) := by
  refine ⟨fun h3 => ?_, fun h3 => ⟨?_, ?_⟩, fun h3 => ?_⟩ <;>
    exact pySlice_of_bounds _ s e h1 h2 h3

/-- Witness for C2 at the spec's example: a transcript whose coding
sequence is `"ATGCCCTAA"` gives `CDS.load(t, 1, 3).seq == "ATG"` and
`CDS.load(t, 4, 9).seq == "CCCTAA"`. -/
theorem C2_seq_one_based_inclusive_slice_witness :
    (CDS.load tEx 1 3).seq = "ATG" ∧ (CDS.load tEx 4 9).seq = "CCCTAA" := by
  have hA := C2_seq_one_based_inclusive_slice tEx 1 3 "b" "ENSE001" 2
    (by decide) (by decide)
  have hB := C2_seq_one_based_inclusive_slice tEx 4 9 "b" "ENSE001" 2
    (by decide) (by decide)
  exact ⟨(hA.1 (by decide)).trans (by decide),
         (hB.1 (by decide)).trans (by decide)⟩

/-- C4: for valid `start ≤ end`, each variant's `to_tuple` is the pure
projection `(<id-field>, start, end)`: `gene_id` for Gene, `transcript_id`
for Transcript and CDS, `exon_id` for Exon, `protein_id` for Protein. -/
theorem C4_identity_tuple (t : Tobj) (s e : Int) (b eid : String) (idx : Int)
    (h : s ≤ e) :
    (Gene.load t s e).to_tuple = (t.gene_id, s, e) ∧
    (Transcript.load t s e).to_tuple = (t.transcript_id, s, e) ∧
    (CDS.load t s e).to_tuple = (t.transcript_id, s, e) ∧
    (Exon.load t s e b eid idx).to_tuple = (eid, s, e) ∧
    (Protein.load t s e).to_tuple = (t.protein_id, s, e) :=
  ⟨rfl, rfl, rfl, rfl, rfl⟩

/-- Witness for C4 at a concrete input with `1 ≤ 2`. -/
theorem C4_identity_tuple_witness :
    (Gene.load tEx 1 2).to_tuple = (tEx.gene_id, 1, 2) ∧
    (Transcript.load tEx 1 2).to_tuple = (tEx.transcript_id, 1, 2) ∧
    (CDS.load tEx 1 2).to_tuple = (tEx.transcript_id, 1, 2) ∧
    (Exon.load tEx 1 2 "b" "ENSE001" 2).to_tuple = ("ENSE001", 1, 2) ∧
    (Protein.load tEx 1 2).to_tuple = (tEx.protein_id, 1, 2) :=
  C4_identity_tuple tEx 1 2 "b" "ENSE001" 2 (by decide)

/-- C5: for every seq-bearing variant, when `end` exceeds the length of the
relevant source sequence (and `1 ≤ start`), `load` still succeeds and the
resulting `seq` is exactly the suffix of the source sequence from index
`start - 1` onward. -/
theorem C5_truncation_suffix (t : Tobj) (s e : Int) (b eid : String)
    (idx : Int) (h1 : 1 ≤ s) :
    ((t.coding_sequence.length : Int) < e →
      (CDS.load t s e).seq =
        String.mk (t.coding_sequence.toList.drop (s - 1).toNat)) ∧
    ((t.sequence.length : Int) < e →
      (Transcript.load t s e).seq =
        String.mk (t.sequence.toList.drop (s - 1).toNat) ∧
      (Exon.load t s e b eid idx).seq =
        String.mk (t.sequence.toList.drop (s - 1).toNat)) ∧
    ((t.protein_sequence.length : Int) < e →
      (Protein.load t s e).seq =
        String.mk (t.protein_sequence.toList.drop (s - 1).toNat)) := by
  refine ⟨fun h2 => ?_, fun h2 => ⟨?_, ?_⟩, fun h2 => ?_⟩ <;>
    exact pySlice_of_overflow _ s e h1 h2

/-- Witness for C5 at the spec's example: coding sequence of length 5,
`CDS.load(t, 3, 10).seq` is its last 3 characters. -/
theorem C5_truncation_suffix_witness :
    (CDS.load tShort 3 10).seq = "GCC" := by
  have h := C5_truncation_suffix tShort 3 10 "b" "ENSE001" 2 (by decide)
  exact (h.1 (by decide)).trans (by decide)

/-- C7: every variant's `load` copies `strand` and `biotype` verbatim from
the source transcript. -/
theorem C7_strand_biotype_copied (t : Tobj) (s e : Int) (b eid : String)
    (idx : Int) :
    (CDS.load t s e).strand = t.strand ∧
    (CDS.load t s e).biotype = t.biotype ∧
    (Exon.load t s e b eid idx).strand = t.strand ∧
    (Exon.load t s e b eid idx).biotype = t.biotype ∧
    (Gene.load t s e).strand = t.strand ∧
    (Gene.load t s e).biotype = t.biotype ∧
    (Protein.load t s e).strand = t.strand ∧
    (Protein.load t s e).biotype = t.biotype ∧
    (Transcript.load t s e).strand = t.strand ∧
    (Transcript.load t s e).biotype = t.biotype :=
  ⟨rfl, rfl, rfl, rfl, rfl, rfl, rfl, rfl, rfl, rfl⟩

/-- C10: every variant's `load` stores `start` and `end` exactly as passed
and `contig` exactly as the source transcript's `contig`, for all integer
inputs, in particular when `end` exceeds the source sequence length. -/
theorem C10_coordinates_contig_verbatim (t : Tobj) (s e : Int)
    (b eid : String) (idx : Int) :
    ((CDS.load t s e).start = s ∧ (CDS.load t s e).end_ = e ∧
      (CDS.load t s e).contig = t.contig) ∧
    ((Exon.load t s e b eid idx).start = s ∧
      (Exon.load t s e b eid idx).end_ = e ∧
      (Exon.load t s e b eid idx).contig = t.contig) ∧
    ((Gene.load t s e).start = s ∧ (Gene.load t s e).end_ = e ∧
      (Gene.load t s e).contig = t.contig) ∧
    ((Protein.load t s e).start = s ∧ (Protein.load t s e).end_ = e ∧
      (Protein.load t s e).contig = t.contig) ∧
    ((Transcript.load t s e).start = s ∧ (Transcript.load t s e).end_ = e ∧
      (Transcript.load t s e).contig = t.contig) :=
  ⟨⟨rfl, rfl, rfl⟩, ⟨rfl, rfl, rfl⟩, ⟨rfl, rfl, rfl⟩, ⟨rfl, rfl, rfl⟩,
    ⟨rfl, rfl, rfl⟩⟩

/-- C1 counterexample: at the concrete input
`Exon.load(tEx, 1, 2, "lincRNA", "ENSE001", 2)` with `1 ≤ 2` and
`tEx.biotype = "protein_coding"`, the record's `biotype` is the
transcript's `"protein_coding"`, not the passed-in `"lincRNA"`. -/
theorem C1_counterexample_exon_biotype :
    (1 : Int) ≤ 2 ∧
    (Exon.load tEx 1 2 "lincRNA" "ENSE001" 2).biotype ≠ "lincRNA" ∧
    (Exon.load tEx 1 2 "lincRNA" "ENSE001" 2).biotype = "protein_coding" ∧
    tEx.biotype = "protein_coding" := by
  refine ⟨by decide, by decide, rfl, rfl⟩

/-- C1 (amended): for `start ≤ end`, the record returned by
`Exon.load(t, s, e, biotype, exon_id, index)` has its `biotype` field equal
to the transcript's own `biotype` (the passed-in `biotype` argument is
ignored by the body), its `index` field equal to the passed `index`, and
`to_tuple()` equal to `(exon_id, s, e)`. -/
theorem C1_amended_exon_load (t : Tobj) (s e : Int) (b eid : String)
    (idx : Int) (h : s ≤ e) :
    (Exon.load t s e b eid idx).biotype = t.biotype ∧
    (Exon.load t s e b eid idx).index = idx ∧
    (Exon.load t s e b eid idx).to_tuple = (eid, s, e) :=
  ⟨rfl, rfl, rfl⟩

/-- Witness for the amended C1 at a concrete input with `1 ≤ 2`. -/
theorem C1_amended_exon_load_witness :
    (Exon.load tEx 1 2 "lincRNA" "ENSE001" 2).biotype = tEx.biotype ∧
    (Exon.load tEx 1 2 "lincRNA" "ENSE001" 2).index = 2 ∧
    (Exon.load tEx 1 2 "lincRNA" "ENSE001" 2).to_tuple = ("ENSE001", 1, 2) :=
  C1_amended_exon_load tEx 1 2 "lincRNA" "ENSE001" 2 (by decide)

/-- C3: `get_parse_function` maps each of the five tags to the
corresponding variant's `load` (the error clause is stated first); for any
other string it fails with an error naming the offending tag, so matching
is case-sensitive exact-string; and the five returned callables are
pairwise distinct (ten disequations). -/
theorem C3_factory_dispatch :
    (∀ to_type : String, to_type ≠ "cds" → to_type ≠ "exon" →
      to_type ≠ "gene" → to_type ≠ "protein" → to_type ≠ "transcript" →
      get_parse_function to_type =
        .error ("Could not get parse function for " ++ to_type)) ∧
    get_parse_function "cds" = .ok (.cdsLoad CDS.load) ∧
    get_parse_function "exon" = .ok (.exonLoad Exon.load) ∧
    get_parse_function "gene" = .ok (.geneLoad Gene.load) ∧
    get_parse_function "protein" = .ok (.proteinLoad Protein.load) ∧
    get_parse_function "transcript" = .ok (.transcriptLoad Transcript.load) ∧
    ParseFunction.cdsLoad CDS.load ≠ ParseFunction.exonLoad Exon.load ∧
    ParseFunction.cdsLoad CDS.load ≠ ParseFunction.geneLoad Gene.load ∧
    ParseFunction.cdsLoad CDS.load ≠ ParseFunction.proteinLoad Protein.load ∧
    ParseFunction.cdsLoad CDS.load ≠ ParseFunction.transcriptLoad Transcript.load ∧
    ParseFunction.exonLoad Exon.load ≠ ParseFunction.geneLoad Gene.load ∧
    ParseFunction.exonLoad Exon.load ≠ ParseFunction.proteinLoad Protein.load ∧
    ParseFunction.exonLoad Exon.load ≠ ParseFunction.transcriptLoad Transcript.load ∧
    ParseFunction.geneLoad Gene.load ≠ ParseFunction.proteinLoad Protein.load ∧
    ParseFunction.geneLoad Gene.load ≠ ParseFunction.transcriptLoad Transcript.load ∧
    ParseFunction.proteinLoad Protein.load ≠ ParseFunction.transcriptLoad Transcript.load := by
  refine ⟨?_, rfl, rfl, rfl, rfl, rfl, nofun, nofun, nofun, nofun, nofun,
    nofun, nofun, nofun, nofun, nofun⟩
  intro to_type h1 h2 h3 h4 h5
  simp only [get_parse_function]
  rw [if_neg h1, if_neg h2, if_neg h3, if_neg h4, if_neg h5]

/-- Witness for C3: the factory is case-sensitive, so the unknown tag
`"CDS"` yields the error naming `"CDS"`. -/
theorem C3_factory_dispatch_witness :
    get_parse_function "CDS" = .error "Could not get parse function for CDS" := by
  rw [C3_factory_dispatch.1 "CDS" (by decide) (by decide) (by decide)
    (by decide) (by decide)]
  rfl

/-- C6: for every variant with a debug string (all except Protein), the
debug string is `TypeName(field1=value1, ...)` in construction order; when
`seq` is longer than 3 characters only its first 3 characters appear,
followed by the ellipsis marker `"..."`, while the stored `seq` attribute
is not the truncated string (the truncation is purely cosmetic). -/
theorem C6_debug_string (c : CDS) (x : Exon) (g : Gene) (tr : Transcript)
    (hc : c.seq.length > 3) (hx : x.seq.length > 3) (htr : tr.seq.length > 3) :
    c.debugStr =
      "CDS" ++ "(" ++ "contig" ++ "=" ++ c.contig ++ ", " ++
      "start" ++ "=" ++ toString c.start ++ ", " ++
      "end" ++ "=" ++ toString c.end_ ++ ", " ++
      "strand" ++ "=" ++ c.strand ++ ", " ++
      "biotype" ++ "=" ++ c.biotype ++ ", " ++
      "transcript_id" ++ "=" ++ c.transcript_id ++ ", " ++
      "transcript_name" ++ "=" ++ c.transcript_name ++ ", " ++
      "seq" ++ "=" ++ c.seq.take 3 ++ "..." ++ ")" ∧
    c.seq.take 3 ≠ c.seq ∧
    x.debugStr =
      "Exon" ++ "(" ++ "contig" ++ "=" ++ x.contig ++ ", " ++
      "start" ++ "=" ++ toString x.start ++ ", " ++
      "end" ++ "=" ++ toString x.end_ ++ ", " ++
      "strand" ++ "=" ++ x.strand ++ ", " ++
      "biotype" ++ "=" ++ x.biotype ++ ", " ++
      "exon_id" ++ "=" ++ x.exon_id ++ ", " ++
      "transcript_id" ++ "=" ++ x.transcript_id ++ ", " ++
      "transcript_name" ++ "=" ++ x.transcript_name ++ ", " ++
      "index" ++ "=" ++ toString x.index ++ ", " ++
      "seq" ++ "=" ++ x.seq.take 3 ++ "..." ++ ")" ∧
    x.seq.take 3 ≠ x.seq ∧
    g.debugStr =
      "Gene" ++ "(" ++ "contig" ++ "=" ++ g.contig ++ ", " ++
      "start" ++ "=" ++ toString g.start ++ ", " ++
      "end" ++ "=" ++ toString g.end_ ++ ", " ++
      "strand" ++ "=" ++ g.strand ++ ", " ++
      "biotype" ++ "=" ++ g.biotype ++ ", " ++
      "gene_id" ++ "=" ++ g.gene_id ++ ", " ++
      "gene_name" ++ "=" ++ g.gene_name ++ ")" ∧
    tr.debugStr =
      "Transcript" ++ "(" ++ "contig" ++ "=" ++ tr.contig ++ ", " ++
      "start" ++ "=" ++ toString tr.start ++ ", " ++
      "end" ++ "=" ++ toString tr.end_ ++ ", " ++
      "strand" ++ "=" ++ tr.strand ++ ", " ++
      "biotype" ++ "=" ++ tr.biotype ++ ", " ++
      "transcript_id" ++ "=" ++ tr.transcript_id ++ ", " ++
      "transcript_name" ++ "=" ++ tr.transcript_name ++ ", " ++
      "seq" ++ "=" ++ tr.seq.take 3 ++ "..." ++ ")" ∧
    tr.seq.take 3 ≠ tr.seq := by
  refine ⟨?_, take_three_ne _ hc, ?_, take_three_ne _ hx, ?_, ?_,
    take_three_ne _ htr⟩
  · simp only [CDS.debugStr, featureRepr, joinArgs,
      reprEntry_seq_long c.seq hc, reprEntry_ne, ne_eq, String.reduceEq,
      not_false_eq_true, String.append_assoc]
  · simp only [Exon.debugStr, featureRepr, joinArgs,
      reprEntry_seq_long x.seq hx, reprEntry_ne, ne_eq, String.reduceEq,
      not_false_eq_true, String.append_assoc]
  · simp only [Gene.debugStr, featureRepr, joinArgs,
      reprEntry_ne, ne_eq, String.reduceEq,
      not_false_eq_true, String.append_assoc]
  · simp only [Transcript.debugStr, featureRepr, joinArgs,
      reprEntry_seq_long tr.seq htr, reprEntry_ne, ne_eq, String.reduceEq,
      not_false_eq_true, String.append_assoc]

/-- C8 counterexample: `CDS.load` (features.py lines 43-54) takes only
`(tobj, start, end)` — no biotype argument — and at the concrete input
`(tEx, 1, 3)` the record's `biotype` is the transcript's own
`"protein_coding"`; it differs from the record built by the spec-modelled
loader `CDS.load_speced` when that is given the biotype `"lincRNA"`. -/
theorem C8_counterexample_cds_biotype :
    (CDS.load tEx 1 3).biotype = "protein_coding" ∧
    tEx.biotype = "protein_coding" ∧
    (CDS.load_speced tEx 1 3 "lincRNA").biotype = "lincRNA" ∧
    (CDS.load tEx 1 3).biotype ≠ (CDS.load_speced tEx 1 3 "lincRNA").biotype :=
  ⟨rfl, rfl, rfl, by decide⟩

/-- C8 (amended): `CDS.load` accepts no biotype argument; the `biotype`
field of the resulting record always equals the source transcript's own
`biotype`. -/
theorem C8_amended_cds_biotype (t : Tobj) (s e : Int) :
    (CDS.load t s e).biotype = t.biotype :=
  rfl

/-- C9 counterexample: with a coding sequence `"ATGCC"` of length 5 and
the reversed coordinates `start = 3 > end = -1`, construction still
succeeds but the Python slice wraps the negative `end`, so the resulting
`seq` is `"GC"`, not the empty string. -/
theorem C9_counterexample_negative_end :
    ((-1 : Int) < 3) ∧ tShort.coding_sequence = "ATGCC" ∧
    (CDS.load tShort 3 (-1)).seq = "GC" ∧ ("GC" : String) ≠ "" :=
  ⟨by decide, rfl, by decide, by decide⟩

/-- C9 (amended): for every variant's `load` called with
`start > end ≥ 0`, construction still succeeds, and for every seq-bearing
variant (CDS, Exon, Transcript, Protein) the resulting record's `seq`
field is the empty string. -/
theorem C9_amended_reversed_coordinates (t : Tobj) (s e : Int)
    (b eid : String) (idx : Int) (h1 : e < s) (h2 : 0 ≤ e) :
    (CDS.load t s e).seq = "" ∧
    (Exon.load t s e b eid idx).seq = "" ∧
    (Transcript.load t s e).seq = "" ∧
    (Protein.load t s e).seq = "" := by
  refine ⟨?_, ?_, ?_, ?_⟩ <;> exact pySlice_of_rev _ s e h2 h1

/-- Witness for the amended C9 at the concrete reversed coordinates
`start = 5 > end = 3 ≥ 0`. -/
theorem C9_amended_reversed_coordinates_witness :
    (CDS.load tEx 5 3).seq = "" ∧
    (Exon.load tEx 5 3 "b" "ENSE001" 2).seq = "" ∧
    (Transcript.load tEx 5 3).seq = "" ∧
    (Protein.load tEx 5 3).seq = "" :=
  C9_amended_reversed_coordinates tEx 5 3 "b" "ENSE001" 2 (by decide)
    (by decide)

/-- Witness for C6: the record `CDS.load(tEx, 1, 9)` has the 9-character
seq `"ATGCCCTAA"`, and its debug string shows only `ATG...`. -/
theorem C6_debug_string_witness :
    (CDS.load tEx 1 9).seq = "ATGCCCTAA" ∧
    (CDS.load tEx 1 9).debugStr =
      "CDS(contig=12, start=1, end=9, strand=+, biotype=protein_coding, transcript_id=ENST0001, transcript_name=GENE-201, seq=ATG...)" := by
  have h := C6_debug_string (CDS.load tEx 1 9)
    (Exon.load tEx 1 9 "b" "ENSE001" 2) (Gene.load tEx 1 9)
    (Transcript.load tEx 1 9) (by decide) (by decide) (by decide)
  refine ⟨by decide, ?_⟩
  rw [h.1]
  decide
